import Mathlib

/-!
Verification of the HoloSelf OS ambient health-telemetry core.

Shallow embedding, translated from the TypeScript sources:
  * src/hooks/useHealthContext.ts   — proactive rules engine (short-circuit variant)
  * src/hooks/useKeystrokeWpm.ts    — keystroke cadence monitor; the same file also
    carries a second, collect-and-pick variant of the rules-engine `evaluate`
  * src/hooks/usePresenceDetector.ts — presence hysteresis
  * src/hooks/usePostureMonitor.ts  — posture smoothing and bad-posture latch
  * src/components/health/BlinkRateWidget.tsx — blink-rate computation
  * src/components/hud/VoiceOrb.tsx — push-to-talk mode machine
  * src/stores/agentStore.ts        — global speech playback queue

Timestamps and durations are naturals (milliseconds).  JavaScript `Math.round`
on a nonnegative quotient is `jsRoundDiv`; the handful of fractional constants
(1.1, 0.9, 0.15, 0.30, 0.50, blink seconds) are embedded as exact rationals.
-/

/-- JavaScript `Math.round (a / b)` for naturals, i.e. `⌊a / b + 1 / 2⌋`
(ties round up, matching JS `Math.round` on nonnegative values). -/
def jsRoundDiv (a b : Nat) : Nat := (2 * a + b) / (2 * b)

/-- JavaScript `Math.round` on an exact rational (half-up, `⌊q + 1 / 2⌋`),
used where the source computes with floating-point quotients. -/
def jsRound (q : ℚ) : ℤ := round q

/-! ## Rules engine (useHealthContext.ts / the variant appended in useKeystrokeWpm.ts) -/

/-- `"rising" | "stable" | "declining"` from useKeystrokeWpm.ts. -/
inductive Trend
  | rising
  | stable
  | declining
deriving DecidableEq

/-- `HealthMetrics` from useHealthContext.ts.  `postureScore` is the 0–100
smoothed posture score; times are milliseconds, focus duration in minutes. -/
structure HealthMetrics where
  wpm : Nat
  wpmTrend : Trend
  postureScore : Nat
  isPresent : Bool
  focusDurationMin : Nat
  breaksTaken : Nat
  lastBreakAt : Nat
deriving DecidableEq

/-- A matching rule's output: alert type, message, priority
(the `candidates` entries of the collect variant of `evaluate`). -/
structure Candidate where
  type : String
  msg : String
  priority : Nat
deriving DecidableEq

/-- `ProactiveAlert` from useHealthContext.ts.  The random `id` field is not
modelled (it carries no information any claim mentions). -/
structure Alert where
  type : String
  message : String
  priority : Nat
  timestamp : Nat
deriving DecidableEq

def MSG_RULE1 : String := "O teu WPM está a cair e estás focado há +90min. Faz uma pausa de 5min."
def MSG_RULE2 : String := "Postura baixa detectada. Endireita as costas e faz o 20-20-20."
def MSG_RULE3 : String := "Deep focus há 2h+ sem pausa. Hidrata e movimenta."
def MSG_RULE4 : String := "1h+ de foco. 20-20-20: olha para algo a 6m por 20s."
def MSG_RULE5 : String := "Postura a deteriorar. Ajusta e continua forte."

/-- The five rule conditions with their alert payloads, in declaration order,
as collected by the `candidates` array of the collect variant of `evaluate`
(useKeystrokeWpm.ts, second document, lines 178–203). -/
def ruleCandidates (m : HealthMetrics) : List Candidate :=
  (if m.wpmTrend = Trend.declining ∧ m.focusDurationMin > 90 then
    [⟨ "break", MSG_RULE1, 1⟩] else []) ++
  (if m.postureScore < 50 then
    [⟨ "posture", MSG_RULE2, 1⟩] else []) ++
  (if m.focusDurationMin > 120 ∧ m.breaksTaken = 0 then
    [⟨ "hydrate", MSG_RULE3, 2⟩] else []) ++
  (if m.focusDurationMin > 60 ∧ m.focusDurationMin % 60 < 6 then
    [⟨ "eyecare", MSG_RULE4, 3⟩] else []) ++
  (if m.focusDurationMin > 45 ∧ m.postureScore < 70 then
    [⟨ "posture", MSG_RULE5, 2⟩] else [])

/-- The short-circuit `evaluate` of src/hooks/useHealthContext.ts (lines 69–102):
the first rule, in declaration order, whose condition holds
fires; later rules are not examined.  Returns the selected candidate
(`fireAlert` arguments); the cooldown gate is applied separately. -/
def evaluateShortCircuit (m : HealthMetrics) : Option Candidate :=
  if m.wpmTrend = Trend.declining ∧ m.focusDurationMin > 90 then
    some ⟨ "break", MSG_RULE1, 1⟩
  else if m.postureScore < 50 then
    some ⟨ "posture", MSG_RULE2, 1⟩
  else if m.focusDurationMin > 120 ∧ m.breaksTaken = 0 then
    some ⟨ "hydrate", MSG_RULE3, 2⟩
  else if m.focusDurationMin > 60 ∧ m.focusDurationMin % 60 < 6 then
    some ⟨ "eyecare", MSG_RULE4, 3⟩
  else if m.focusDurationMin > 45 ∧ m.postureScore < 70 then
    some ⟨ "posture", MSG_RULE5, 2⟩
  else none

/-- The collect variant of `evaluate` (second document of useKeystrokeWpm.ts,
lines 172–210): collect all matching candidates, stable-sort ascending by
priority (JS `Array.prototype.sort` is stable), fire the head.  Mathlib's
`List.insertionSort` is stable, matching the JS comparator `a.priority - b.priority`. -/
def evaluateCollect (m : HealthMetrics) : Option Candidate :=
  ((ruleCandidates m).insertionSort (fun a b => a.priority ≤ b.priority)).head?

/-- `fireAlert` of useHealthContext.ts (lines 52–67): the hard global cooldown.
Given the gap, the current time and the time of the last emitted alert, either
emits nothing (within the cooldown) or emits the alert and advances the
last-alert time.  Nat subtraction agrees with the JS `now - last < gap` test
whenever `gap > 0`. -/
def fireAlert (minAlertGapMs now lastAlert : Nat) (c : Candidate) : Option Alert × Nat :=
  if now - lastAlert < minAlertGapMs then (none, lastAlert)
  else (some ⟨c.type, c.msg, c.priority, now⟩, now)

/-- One evaluation tick of the rules engine: no-op while the user is away,
otherwise the selected rule (if any) is passed through the cooldown gate.
Parameterized by the candidate selector so that both `evaluate` variants and
any other selector share the cooldown reasoning. -/
def engineTick (sel : HealthMetrics → Option Candidate) (gap lastAlert now : Nat)
    (m : HealthMetrics) : Option Alert × Nat :=
  if m.isPresent = false then (none, lastAlert)
  else
    match sel m with
    | none => (none, lastAlert)
    | some c => fireAlert gap now lastAlert c

/-- Run the engine over a list of (tick time, metrics snapshot) pairs starting
from a given emitted-alert accumulator and last-alert time. -/
def engineRunFrom (sel : HealthMetrics → Option Candidate) (gap : Nat) :
    List Alert × Nat → List (Nat × HealthMetrics) → List Alert × Nat
  | st, [] => st
  | (as, lastAlert), (now, m) :: rest =>
      let r := engineTick sel gap lastAlert now m
      engineRunFrom sel gap (as ++ r.1.toList, r.2) rest

/-- Run the engine from startup: no alerts yet, `lastAlertRef` initialized to 0. -/
def engineRun (sel : HealthMetrics → Option Candidate) (gap : Nat)
    (ticks : List (Nat × HealthMetrics)) : List Alert × Nat :=
  engineRunFrom sel gap ([], 0) ticks

/-! ## Keystroke cadence monitor (useKeystrokeWpm.ts) -/

/-- `"none" | "mild" | "moderate" | "high"` from useKeystrokeWpm.ts. -/
inductive Fatigue
  | none
  | mild
  | moderate
  | high
deriving DecidableEq

/-- `WpmSnapshot` from useKeystrokeWpm.ts. -/
structure WpmSnapshot where
  wpm : Nat
  trend : Trend
  fatigue : Fatigue
  sessionMinutes : Nat
deriving DecidableEq

def WINDOW_MS : Nat := 60000
def CHARS_PER_WORD : Nat := 5
def MILD_DROP : ℚ := 15 / 100
def MODERATE_DROP : ℚ := 30 / 100
def HIGH_DROP : ℚ := 50 / 100

/-- The mutable refs of `useKeystrokeWpm`: keystroke timestamps, the baseline
ratchet, the trend history, the session start time and the calibrating flag. -/
structure WpmState where
  keystrokes : List Nat
  baseline : Nat
  calibrating : Bool
  history : List Nat
  sessionStart : Nat
deriving DecidableEq

/-- `handleKeydown`: a counted key event appends its timestamp.  Which browser
keys count (characters, Backspace, Enter) is resolved before this model; the
model receives the timestamps of counted keys only. -/
def handleKeydown (s : WpmState) (t : Nat) : WpmState :=
  { s with keystrokes := s.keystrokes ++ [t] }

/-- The trend computation of useKeystrokeWpm.ts lines 72–82: split the history
in half, compare the half averages against ×1.1 / ×0.9 (exact rationals). -/
def wpmTrendOf (hist : List Nat) : Trend :=
  if hist.length ≥ 4 then
    let firstHalf := hist.take (hist.length / 2)
    let secondHalf := hist.drop (hist.length / 2)
    let avgFirst : ℚ := (firstHalf.sum : ℚ) / (firstHalf.length : ℚ)
    let avgSecond : ℚ := (secondHalf.sum : ℚ) / (secondHalf.length : ℚ)
    if avgSecond > avgFirst * (11 / 10) then Trend.rising
    else if avgSecond < avgFirst * (9 / 10) then Trend.declining
    else Trend.stable
  else Trend.stable

/-- The fatigue computation of useKeystrokeWpm.ts lines 84–91, evaluated with
the post-calibration flag and ratcheted baseline of the same tick. -/
def fatigueOf (calibrating : Bool) (baseline wpm : Nat) : Fatigue :=
  if calibrating = false ∧ baseline > 0 ∧ wpm > 0 then
    let drop : ℚ := 1 - (wpm : ℚ) / (baseline : ℚ)
    if drop ≥ HIGH_DROP then Fatigue.high
    else if drop ≥ MODERATE_DROP then Fatigue.moderate
    else if drop ≥ MILD_DROP then Fatigue.mild
    else Fatigue.none
  else Fatigue.none

/-- The pruned rolling window of a tick (useKeystrokeWpm.ts line 48).  The JS
window test `t > now - WINDOW_MS` is written `t + WINDOW_MS > now` (the same
inequality over ℤ, total on ℕ). -/
def prunedKeystrokes (s : WpmState) (now : Nat) : List Nat :=
  s.keystrokes.filter (fun t => t + WINDOW_MS > now)

/-- The WPM a tick computes (line 51):
`Math.round(count / 5 * (60000 / WINDOW_MS))` with `WINDOW_MS = 60000`. -/
def tickWpm (s : WpmState) (now : Nat) : Nat :=
  jsRoundDiv (prunedKeystrokes s now).length CHARS_PER_WORD

/-- The session minutes a tick computes (line 54):
`Math.round((now - sessionStart) / 60000)`. -/
def tickSessionMinutes (s : WpmState) (now : Nat) : Nat :=
  jsRoundDiv (now - s.sessionStart) 60000

/-- One 5-second recalculation tick of `useKeystrokeWpm` (the `setInterval`
body, lines 43–94): prune the rolling window, compute WPM, ratchet the baseline
while calibrating, close calibration permanently once five session minutes have
elapsed with a positive baseline, update the trend history, and derive trend
and fatigue. -/
def wpmTick (s : WpmState) (now : Nat) : WpmState × WpmSnapshot :=
  let keystrokes := prunedKeystrokes s now
  let currentWpm := tickWpm s now
  let sessionMinutes := tickSessionMinutes s now
  let baseline := if s.calibrating ∧ currentWpm > s.baseline then currentWpm else s.baseline
  let calibrating :=
    if s.calibrating ∧ sessionMinutes ≥ 5 ∧ baseline > 0 then false else s.calibrating
  let history0 := s.history ++ [currentWpm]
  let history := if history0.length > 12 then history0.drop (history0.length - 12) else history0
  let trend := wpmTrendOf history
  let fatigue := fatigueOf calibrating baseline currentWpm
  ({ keystrokes := keystrokes, baseline := baseline, calibrating := calibrating,
     history := history, sessionStart := s.sessionStart },
   { wpm := currentWpm, trend := trend, fatigue := fatigue, sessionMinutes := sessionMinutes })

/-- Events of the keystroke monitor: a counted key press, or an evaluation tick. -/
inductive WpmEvt
  | key (t : Nat)
  | tick (now : Nat)

def wpmStep (s : WpmState) : WpmEvt → WpmState
  | WpmEvt.key t => handleKeydown s t
  | WpmEvt.tick now => (wpmTick s now).1

/-- A run of the keystroke monitor over an interleaved event sequence. -/
def wpmRun (s : WpmState) (es : List WpmEvt) : WpmState :=
  es.foldl wpmStep s

/-! ## Presence detector (usePresenceDetector.ts) -/

/-- The presence state of usePresenceDetector.ts.  The source keeps
`wasPresentRef` and the exposed `isPresent` in lockstep (every write updates
both); they are one field here.  `awayStart = 0` is the source's sentinel for
"not away". -/
structure PresenceS where
  isPresent : Bool
  lastSeen : Nat
  awayStart : Nat
  awayDurationMs : Nat
deriving DecidableEq

/-- The callbacks a presence tick may invoke. -/
inductive PresenceEvent
  | onLeave
  | onReturn (awayMs : Nat)
deriving DecidableEq

/-- The decision part of `analyzeFrame` (usePresenceDetector.ts lines 101–130),
from `faceDetected = stdDev > brightnessThreshold` on: `faceDetected` abstracts
the camera-frame luma-variance test of lines 58–101.  Returns the new state and
the callback fired, if any. -/
def analyzeFrame (absenceThresholdMs : Nat) (s : PresenceS) (now : Nat)
    (faceDetected : Bool) : PresenceS × Option PresenceEvent :=
  if faceDetected then
    if s.isPresent = false then
      let awayMs := if s.awayStart > 0 then now - s.awayStart else 0
      ({ isPresent := true, lastSeen := now, awayStart := 0, awayDurationMs := 0 },
       some (PresenceEvent.onReturn awayMs))
    else
      ({ s with lastSeen := now, awayDurationMs := 0 }, none)
  else
    let timeSinceLastSeen := now - s.lastSeen
    if timeSinceLastSeen > absenceThresholdMs ∧ s.isPresent = true then
      ({ s with isPresent := false, awayStart := now, awayDurationMs := timeSinceLastSeen },
       some PresenceEvent.onLeave)
    else if s.isPresent = false then
      ({ s with awayDurationMs := now - s.awayStart }, none)
    else
      (s, none)

/-! ## Posture monitor (usePostureMonitor.ts) -/

/-- The mutable refs of `usePostureMonitor` that drive the bad-posture latch:
the rolling raw-score window, the start of the current bad streak
(0 = the source's sentinel for "no streak"), and the alerted latch. -/
structure PostureS where
  scores : List Nat
  badStart : Nat
  alerted : Bool
deriving DecidableEq

/-- The rolling window after pushing one raw score (usePostureMonitor.ts lines
123–124): push, then shift once if the window exceeds 10. -/
def pushScore (scores : List Nat) (raw : Nat) : List Nat :=
  let scores0 := scores ++ [raw]
  if scores0.length > 10 then scores0.drop 1 else scores0

/-- The smoothed score a tick computes (lines 122–127): `Math.round` of the
average of the updated rolling window. -/
def smoothedScore (s : PostureS) (raw : Nat) : Nat :=
  jsRoundDiv (pushScore s.scores raw).sum (pushScore s.scores raw).length

/-- The latch part of `analyzePosture` (usePostureMonitor.ts lines 122–156),
from the smoothing on: `raw` is the clamped 0–100 instantaneous score produced
by the centroid analysis of lines 69–120 (a tick that fails the
`totalWeight < 100` guard never reaches this code).  Returns the new state and
`some duration` when `onBadPosture(duration)` fires. -/
def analyzePosture (badPostureThresholdMs : Nat) (s : PostureS) (now : Nat)
    (raw : Nat) : PostureS × Option Nat :=
  let scores := pushScore s.scores raw
  let avgScore := jsRoundDiv scores.sum scores.length
  if avgScore < 60 then
    let badStart := if s.badStart = 0 then now else s.badStart
    let duration := now - badStart
    if duration > badPostureThresholdMs ∧ s.alerted = false then
      ({ scores := scores, badStart := badStart, alerted := true }, some duration)
    else
      ({ scores := scores, badStart := badStart, alerted := s.alerted }, none)
  else
    ({ scores := scores, badStart := 0, alerted := false }, none)

/-! ## Blink-rate computation (BlinkRateWidget.tsx) -/

/-- The 5-second stats recomputation of `startTracking`
(BlinkRateWidget.tsx lines 126–148) as the source writes it:
`elapsed = (Date.now() - lastBlinkTimeRef.current) / 1000`,
`totalElapsed = max(elapsed, 60)`, `bpm = round(blinkCount / totalElapsed * 60)`.
`lastBlinkTime` is initialized to the tracking start time and overwritten with
`Date.now()` on every recorded blink, so after the first blink `elapsed` is the
time since the last blink, not the observation time. -/
def blinksPerMinute (now lastBlinkTime blinkCount : Nat) : ℤ :=
  let elapsed : ℚ := ((now - lastBlinkTime : Nat) : ℚ) / 1000
  let totalElapsed : ℚ := max elapsed 60
  jsRound ((blinkCount : ℚ) / totalElapsed * 60)

/-- Modelled from the spec: the rate the spec prescribes
(`blinkCount / max(elapsedSeconds, 60) × 60` where `elapsedSeconds` is the
elapsed observation time since tracking started), for comparison with
`blinksPerMinute` above. -/
def blinksPerMinuteSpec (now trackingStart blinkCount : Nat) : ℤ :=
  let elapsed : ℚ := ((now - trackingStart : Nat) : ℚ) / 1000
  let totalElapsed : ℚ := max elapsed 60
  jsRound ((blinkCount : ℚ) / totalElapsed * 60)

/-! ## Voice orb push-to-talk machine (VoiceOrb.tsx) -/

/-- `OrbMode` from VoiceOrb.tsx. -/
inductive OrbMode
  | ready
  | listening
  | processing
  | cooldown
deriving DecidableEq, Fintype

/-- `activate` (VoiceOrb.tsx lines 67–84): guarded `if (mode !== "ready") return`,
otherwise start the microphone and enter `listening`.  Only the mode is
modelled; the countdown display does not feed back into the mode. -/
def activate (m : OrbMode) : OrbMode :=
  if m ≠ OrbMode.ready then m else OrbMode.listening

/-- `deactivate` (VoiceOrb.tsx lines 86–93): accepted only from `listening`,
returning to `ready`; a no-op in every other mode. -/
def deactivate (m : OrbMode) : OrbMode :=
  if m = OrbMode.listening then OrbMode.ready else m

/-- `handleClick` (VoiceOrb.tsx lines 95–98); the global hotkey handler
(lines 101–104) is character-for-character the same dispatch. -/
def handleClick (m : OrbMode) : OrbMode :=
  if m = OrbMode.ready then activate m
  else if m = OrbMode.listening then deactivate m
  else m

/-- `handleTimeout` (VoiceOrb.tsx lines 33–41) would force `cooldown`
unconditionally, but it is dead code in this source tree: it is passed as an
`onTimeout` option that `useVoiceListener` (src/hooks/useVoiceListener.ts)
does not declare and never invokes, so no reachable event runs it. -/
def handleTimeout (_ : OrbMode) : OrbMode := OrbMode.cooldown

/-- The events that can actually reach the mode state: a click or the hotkey
(the identical dispatch of lines 95–104), the processing-sync effect of lines
54–65 observing `voice.isProcessing` turn true resp. false, and the cooldown
timer (lines 60–63) expiring.  The cooldown timer is only ever armed when the
mode is set to `cooldown`, and entering any other mode from `cooldown` cannot
happen before it fires, so its effect is guarded by the current mode. -/
inductive OrbEvent
  | click
  | hotkey
  | procSyncTrue
  | procSyncFalse
  | cooldownDone
deriving DecidableEq, Fintype

/-- One step of the VoiceOrb mode machine. -/
def orbStep (m : OrbMode) : OrbEvent → OrbMode
  | OrbEvent.click => handleClick m
  | OrbEvent.hotkey => handleClick m
  | OrbEvent.procSyncTrue => if m = OrbMode.listening then OrbMode.processing else m
  | OrbEvent.procSyncFalse => if m = OrbMode.processing then OrbMode.cooldown else m
  | OrbEvent.cooldownDone => if m = OrbMode.cooldown then OrbMode.ready else m

/-! ## Global speech playback queue (agentStore.ts)

`_speechQueue` / `_isSpeaking` / `processSpeechQueue` / `queueSpeak` form a
single-threaded serial queue.  Tasks are identified by naturals (their enqueue
sequence numbers in a run); the state also carries audit logs of the enqueue,
start and completion orders, which the source realizes implicitly as the
temporal order of the corresponding events. -/

structure SpeechState where
  pending : List Nat
  playing : List Nat
  completedTasks : List Nat
  speaking : Bool
  started : List Nat
  enqueued : List Nat
deriving DecidableEq

/-- `processSpeechQueue` (agentStore.ts lines 17–28), up to its first suspension
point: if already speaking or the queue is empty, return; otherwise set
`_isSpeaking`, shift the head task and begin awaiting it.  `playing` holds the
tasks whose `await task()` is in flight (the `_isSpeaking` guard is what keeps
it from growing, which theorem speech_queue_serial_fifo then proves). -/
def processSpeechQueue (s : SpeechState) : SpeechState :=
  if s.speaking then s
  else
    match s.pending with
    | [] => s
    | t :: rest =>
        { s with speaking := true, pending := rest,
                 playing := s.playing ++ [t], started := s.started ++ [t] }

/-- `queueSpeak` (agentStore.ts lines 52–58): push the task, then run the
processing loop. -/
def queueSpeak (t : Nat) (s : SpeechState) : SpeechState :=
  processSpeechQueue { s with pending := s.pending ++ [t], enqueued := s.enqueued ++ [t] }

/-- The in-flight task settling, successfully (`ok = true`) or by
rejection/decode failure (`ok = false`).  Either way control reaches the
`finally` block of `processSpeechQueue` (lines 21–27): `_isSpeaking` is reset
and `processSpeechQueue()` runs again.  The outcome flag provably does not
influence the queue state. -/
def finishTask (ok : Bool) (s : SpeechState) : SpeechState :=
  match s.playing with
  | [] => s
  | t :: rest =>
      let _ := ok
      processSpeechQueue
        { s with playing := rest, completedTasks := s.completedTasks ++ [t],
                 speaking := false }

/-- Queue events: an enqueue from any caller, or the in-flight task settling. -/
inductive SpeechEvt
  | enq (t : Nat)
  | fin (ok : Bool)

def speechStep (s : SpeechState) : SpeechEvt → SpeechState
  | SpeechEvt.enq t => queueSpeak t s
  | SpeechEvt.fin ok => finishTask ok s

/-- The module-load state: empty queue, not speaking. -/
def initSpeech : SpeechState :=
  { pending := [], playing := [], completedTasks := [], speaking := false,
    started := [], enqueued := [] }

/-- States reachable from module load by any interleaving of enqueues (from any
number of callers) and task completions. -/
inductive SpeechReach : SpeechState → Prop
  | init : SpeechReach initSpeech
  | step {s : SpeechState} (e : SpeechEvt) : SpeechReach s → SpeechReach (speechStep s e)

/-- The serial-queue invariant: the speaking flag mirrors an in-flight task,
at most one task is in flight, starts are completions followed by the in-flight
task, and the enqueue log splits into completed, in-flight and pending tasks in
order. -/
def SpeechInv (s : SpeechState) : Prop :=
  s.speaking = !s.playing.isEmpty ∧
  s.playing.length ≤ 1 ∧
  (s.playing = [] → s.pending = []) ∧
  s.started = s.completedTasks ++ s.playing ∧
  s.enqueued = s.completedTasks ++ s.playing ++ s.pending

/-- Settling the in-flight task repeatedly with the given outcome flags. -/
def drainSpeech (s : SpeechState) (flags : List Bool) : SpeechState :=
  flags.foldl (fun s ok => finishTask ok s) s

/-! ## Theorems -/

/-- C1: the claim requires the emitted alert's priority to equal the lowest
priority number among all rules whose conditions hold, but the short-circuit
`evaluate` of useHealthContext.ts violates this: with stable trend, posture
score 65, user present, focus 61 min and 1 break taken, only the eye-care rule
(priority 3) and the soft-posture-reminder rule (priority 2) hold, yet the
first match in declaration order is the eye-care rule, so the emitted alert has
priority 3, not 2.  The collect variant of `evaluate` (useKeystrokeWpm.ts,
second document) does return the priority-2 candidate on the same snapshot. -/
theorem rules_engine_lowest_priority_divergence :
    evaluateShortCircuit ⟨0, Trend.stable, 65, true, 61, 1, 0⟩ =
      some ⟨ "eyecare", MSG_RULE4, 3⟩ ∧
    ((61 : Nat) > 45 ∧ (65 : Nat) < 70) ∧
    evaluateCollect ⟨0, Trend.stable, 65, true, 61, 1, 0⟩ =
      some ⟨ "posture", MSG_RULE5, 2⟩ ∧
    engineTick evaluateShortCircuit 600000 0 600000 ⟨0, Trend.stable, 65, true, 61, 1, 0⟩ =
      (some ⟨ "eyecare", MSG_RULE4, 3, 600000⟩, 600000) := by
  refine ⟨rfl, by decide, rfl, rfl⟩

/-- The collect variant does satisfy the specified arbitration: whenever it
selects a candidate, that candidate's priority is minimal among all rules whose
conditions hold on the snapshot. -/
lemma evaluateCollect_min (m : HealthMetrics) (c : Candidate)
    (hc : evaluateCollect m = some c) :
    ∀ d ∈ ruleCandidates m, c.priority ≤ d.priority := by
  intro d hd
  unfold evaluateCollect at hc
  haveI : IsTotal Candidate (fun a b => a.priority ≤ b.priority) :=
    ⟨fun a b => Nat.le_total a.priority b.priority⟩
  haveI : IsTrans Candidate (fun a b => a.priority ≤ b.priority) :=
    ⟨fun _ _ _ hab hbc => Nat.le_trans hab hbc⟩
  have hsorted : ((ruleCandidates m).insertionSort (fun a b => a.priority ≤ b.priority)).Sorted
      (fun a b => a.priority ≤ b.priority) := List.sorted_insertionSort _ _
  have hdl : d ∈ (ruleCandidates m).insertionSort (fun a b => a.priority ≤ b.priority) :=
    (List.perm_insertionSort _ _).mem_iff.mpr hd
  cases hsort : (ruleCandidates m).insertionSort (fun a b => a.priority ≤ b.priority) with
  | nil => rw [hsort] at hc; simp at hc
  | cons x xs =>
      rw [hsort] at hc hdl hsorted
      simp at hc
      subst hc
      rcases List.mem_cons.mp hdl with h | h
      · rw [h]
      · exact (List.pairwise_cons.mp hsorted).1 d h

/-- C4: the VoiceOrb mode only moves along
ready→listening→processing→cooldown→ready together with the manual
deactivation listening→ready the claim sanctions; activation is a no-op
outside `ready` (in particular from `processing`) and deactivation is a no-op
outside `listening`. -/
theorem voice_orb_mode_transitions :
    (∀ m e, orbStep m e = m ∨
      (m = OrbMode.ready ∧ orbStep m e = OrbMode.listening) ∨
      (m = OrbMode.listening ∧ orbStep m e = OrbMode.processing) ∨
      (m = OrbMode.processing ∧ orbStep m e = OrbMode.cooldown) ∨
      (m = OrbMode.cooldown ∧ orbStep m e = OrbMode.ready) ∨
      (m = OrbMode.listening ∧ orbStep m e = OrbMode.ready)) ∧
    (∀ m, m ≠ OrbMode.ready → activate m = m) ∧
    (∀ m, m ≠ OrbMode.listening → deactivate m = m) ∧
    deactivate OrbMode.listening = OrbMode.ready ∧
    handleClick OrbMode.processing = OrbMode.processing := by
  decide

/-- Witness for C4: attempting to start from `processing` does nothing. -/
theorem voice_orb_mode_transitions_witness :
    activate OrbMode.processing = OrbMode.processing ∧
    deactivate OrbMode.cooldown = OrbMode.cooldown :=
  ⟨voice_orb_mode_transitions.2.1 OrbMode.processing (by decide),
   voice_orb_mode_transitions.2.2.1 OrbMode.cooldown (by decide)⟩

/-- One engine tick under a positive cooldown gap either leaves the state
untouched and emits nothing, or emits an alert stamped `now` at least `gap`
after the previous last-alert time. -/
lemma engineTick_emit_or_skip (sel : HealthMetrics → Option Candidate)
    (gap lastAlert now : Nat) (m : HealthMetrics) (hgap : 0 < gap) :
    engineTick sel gap lastAlert now m = (none, lastAlert) ∨
    ∃ a : Alert, engineTick sel gap lastAlert now m = (some a, now) ∧
      a.timestamp = now ∧ lastAlert + gap ≤ now := by
  unfold engineTick fireAlert
  by_cases hp : m.isPresent = false
  · simp [hp]
  · simp only [hp, if_false]
    cases hsel : sel m with
    | none => exact Or.inl rfl
    | some c =>
      by_cases hlt : now - lastAlert < gap
      · simp [hlt]
      · simp only [hlt, if_false]
        exact Or.inr ⟨⟨c.type, c.msg, c.priority, now⟩, rfl, rfl, by omega⟩

/-- Alerts accumulated by an engine run stay separated by the gap, provided the
accumulator already is and the last-alert time dominates its timestamps. -/
lemma engineRunFrom_pairwise (sel : HealthMetrics → Option Candidate) (gap : Nat)
    (hgap : 0 < gap) :
    ∀ (ticks : List (Nat × HealthMetrics)) (as : List Alert) (lastAlert : Nat),
      List.Pairwise (fun a b => a.timestamp + gap ≤ b.timestamp) as →
      (∀ a ∈ as, a.timestamp ≤ lastAlert) →
      List.Pairwise (fun a b => a.timestamp + gap ≤ b.timestamp)
        (engineRunFrom sel gap (as, lastAlert) ticks).1 ∧
      ∀ a ∈ (engineRunFrom sel gap (as, lastAlert) ticks).1,
        a.timestamp ≤ (engineRunFrom sel gap (as, lastAlert) ticks).2 := by
  intro ticks
  induction ticks with
  | nil => exact fun as lastAlert hpw hle => ⟨hpw, hle⟩
  | cons t rest ih =>
    intro as lastAlert hpw hle
    obtain ⟨now, m⟩ := t
    have hdef : engineRunFrom sel gap (as, lastAlert) ((now, m) :: rest)
        = engineRunFrom sel gap (as ++ (engineTick sel gap lastAlert now m).1.toList,
            (engineTick sel gap lastAlert now m).2) rest := rfl
    rcases engineTick_emit_or_skip sel gap lastAlert now m hgap with h | ⟨a, h, hts, hsep⟩
    · rw [hdef, h]
      simpa using ih as lastAlert hpw hle
    · rw [hdef, h]
      have hpw2 : List.Pairwise (fun a b => a.timestamp + gap ≤ b.timestamp) (as ++ [a]) := by
        rw [List.pairwise_append]
        refine ⟨hpw, List.pairwise_singleton _ _, ?_⟩
        intro x hx b hb
        rw [List.mem_singleton] at hb
        subst hb
        have := hle x hx
        omega
      have hle2 : ∀ x ∈ as ++ [a], x.timestamp ≤ now := by
        intro x hx
        rcases List.mem_append.mp hx with hx | hx
        · have := hle x hx
          omega
        · rw [List.mem_singleton] at hx
          subst hx
          omega
      simpa using ih (as ++ [a]) now hpw2 hle2

/-- C2: the global cooldown.  An evaluation tick occurring less than
`minAlertGapMs` after the most recently emitted alert emits nothing, whatever
the selector says about the metrics; and over any run from startup, every pair
of emitted alerts (in emission order) has timestamps at least `minAlertGapMs`
apart. -/
theorem rules_engine_global_cooldown :
    (∀ (sel : HealthMetrics → Option Candidate) (gap lastAlert now : Nat)
        (m : HealthMetrics), 0 < gap → now - lastAlert < gap →
      (engineTick sel gap lastAlert now m).1 = none) ∧
    ∀ (sel : HealthMetrics → Option Candidate) (gap : Nat), 0 < gap →
      ∀ ticks : List (Nat × HealthMetrics),
        List.Pairwise (fun a b => a.timestamp + gap ≤ b.timestamp)
          (engineRun sel gap ticks).1 := by
  constructor
  · intro sel gap lastAlert now m hgap hlt
    rcases engineTick_emit_or_skip sel gap lastAlert now m hgap with h | ⟨a, h, _, hsep⟩
    · rw [h]
    · omega
  · intro sel gap hgap ticks
    exact (engineRunFrom_pairwise sel gap hgap ticks [] 0 (List.Pairwise.nil)
      (by intro a ha; cases ha)).1

/-- Witness for C2: a tick 5 minutes after an emitted alert stays silent even
though the posture rule matches, and a concrete two-tick run is gap-separated. -/
theorem rules_engine_global_cooldown_witness :
    (engineTick evaluateShortCircuit 600000 600000 900000
      ⟨0, Trend.stable, 40, true, 100, 0, 0⟩).1 = none ∧
    List.Pairwise (fun a b => a.timestamp + 600000 ≤ b.timestamp)
      (engineRun evaluateShortCircuit 600000
        [(600000, ⟨0, Trend.stable, 40, true, 100, 0, 0⟩),
         (900000, ⟨0, Trend.stable, 40, true, 100, 0, 0⟩)]).1 :=
  ⟨rules_engine_global_cooldown.1 evaluateShortCircuit 600000 600000 900000
      ⟨0, Trend.stable, 40, true, 100, 0, 0⟩ (by decide) (by decide),
   rules_engine_global_cooldown.2 evaluateShortCircuit 600000 (by decide) _⟩

/-- C5: presence hysteresis.  From a present state, a tick flips `isPresent`
to false only if that tick observed low variance (`faceDetected = false`) and
at least `absenceThresholdMs` have passed since `lastSeen`; conversely a single
low-variance tick within the absence window leaves the user marked present. -/
theorem presence_absence_hysteresis :
    ∀ (absenceThresholdMs : Nat) (s : PresenceS) (now : Nat) (faceDetected : Bool),
      s.isPresent = true →
      ((analyzeFrame absenceThresholdMs s now faceDetected).1.isPresent = false →
        faceDetected = false ∧ absenceThresholdMs ≤ now - s.lastSeen) ∧
      (faceDetected = false → now - s.lastSeen ≤ absenceThresholdMs →
        (analyzeFrame absenceThresholdMs s now faceDetected).1.isPresent = true) := by
  intro thr s now face hpres
  cases face with
  | true =>
      constructor
      · intro hflip
        simp [analyzeFrame, hpres] at hflip
      · intro hcontra
        cases hcontra
  | false =>
      by_cases hcond : now - s.lastSeen > thr
      · constructor
        · intro _
          exact ⟨rfl, by omega⟩
        · intro _ hwin
          omega
      · constructor
        · intro hflip
          simp [analyzeFrame, hpres, hcond] at hflip
        · intro _ _
          simp [analyzeFrame, hpres, hcond]

/-- Witness for C5: four seconds after last being seen (threshold 10 s), a
single low-variance frame leaves the user present. -/
theorem presence_absence_hysteresis_witness :
    (analyzeFrame 10000 ⟨true, 5000, 0, 0⟩ 9000 false).1.isPresent = true :=
  (presence_absence_hysteresis 10000 ⟨true, 5000, 0, 0⟩ 9000 false rfl).2 rfl (by decide)

/-- C9: the bad-posture latch.  A firing tick reports a duration strictly over
the threshold and sets the latch from unarmed; a latched state never fires
again; the latch survives while the smoothed score stays bad; recovery
(smoothed score ≥ 60) clears the latch and the streak start so a later streak
can fire once more; and an unarmed bad tick whose streak duration exceeds the
threshold does fire, with exactly that duration. -/
theorem posture_bad_streak_alert_once :
    ∀ (thr : Nat) (s : PostureS) (now raw : Nat),
      (∀ d, (analyzePosture thr s now raw).2 = some d →
        thr < d ∧ s.alerted = false ∧ (analyzePosture thr s now raw).1.alerted = true) ∧
      (s.alerted = true → (analyzePosture thr s now raw).2 = none) ∧
      (smoothedScore s raw < 60 → s.alerted = true →
        (analyzePosture thr s now raw).1.alerted = true) ∧
      (60 ≤ smoothedScore s raw →
        (analyzePosture thr s now raw).1.alerted = false ∧
        (analyzePosture thr s now raw).1.badStart = 0 ∧
        (analyzePosture thr s now raw).2 = none) ∧
      (smoothedScore s raw < 60 → s.alerted = false →
        thr < now - (if s.badStart = 0 then now else s.badStart) →
        (analyzePosture thr s now raw).2
          = some (now - (if s.badStart = 0 then now else s.badStart))) := by
  intro thr s now raw
  have hsm : smoothedScore s raw
      = jsRoundDiv (pushScore s.scores raw).sum (pushScore s.scores raw).length := rfl
  refine ⟨?_, ?_, ?_, ?_, ?_⟩
  · intro d hd
    simp only [analyzePosture] at hd ⊢
    split_ifs at hd ⊢ with h1 h2 <;> simp_all
  · intro halert
    simp only [analyzePosture]
    split_ifs with h1 h2 <;> simp_all
  · intro hbad halert
    rw [hsm] at hbad
    simp only [analyzePosture]
    split_ifs with h1 h2 <;> simp_all
  · intro hgood
    rw [hsm] at hgood
    simp only [analyzePosture]
    split_ifs with h1 h2 <;> simp_all <;> omega
  · intro hbad halert hdur
    rw [hsm] at hbad
    simp only [analyzePosture]
    split_ifs with h1 h2 <;> simp_all

/-- Witness for C9: an armed streak that began at 1 s fires at 302 s against a
5-minute threshold, reporting the 301 s duration. -/
theorem posture_bad_streak_alert_once_witness :
    (analyzePosture 300000 ⟨[40], 1000, false⟩ 302000 40).2 = some 301000 := by
  have h := (posture_bad_streak_alert_once 300000 ⟨[40], 1000, false⟩ 302000 40).2.2.2.2
    (by decide) rfl (by decide)
  simpa using h

/-- A single keystroke-monitor event never decreases the baseline. -/
lemma wpmStep_baseline_mono (s : WpmState) (e : WpmEvt) :
    s.baseline ≤ (wpmStep s e).baseline := by
  cases e with
  | key t => exact Nat.le.refl
  | tick now =>
      simp only [wpmStep, wpmTick]
      split_ifs with hc
      · exact Nat.le_of_lt hc.2
      · exact Nat.le.refl

/-- Once calibration is closed, an event leaves it closed and the baseline
untouched. -/
lemma wpmStep_frozen (s : WpmState) (e : WpmEvt) (h : s.calibrating = false) :
    (wpmStep s e).baseline = s.baseline ∧ (wpmStep s e).calibrating = false := by
  cases e with
  | key t => exact ⟨rfl, h⟩
  | tick now => simp [wpmStep, wpmTick, h]

/-- Run form of `wpmStep_baseline_mono`. -/
lemma wpmRun_baseline_mono (es : List WpmEvt) :
    ∀ s : WpmState, s.baseline ≤ (wpmRun s es).baseline := by
  induction es with
  | nil => intro s; exact le_refl _
  | cons e rest ih =>
      intro s
      exact le_trans (wpmStep_baseline_mono s e) (ih (wpmStep s e))

/-- Run form of `wpmStep_frozen`. -/
lemma wpmRun_frozen (es : List WpmEvt) :
    ∀ s : WpmState, s.calibrating = false →
      (wpmRun s es).baseline = s.baseline ∧ (wpmRun s es).calibrating = false := by
  induction es with
  | nil => exact fun s h => ⟨rfl, h⟩
  | cons e rest ih =>
      intro s h
      obtain ⟨hb, hc⟩ := wpmStep_frozen s e h
      obtain ⟨hb', hc'⟩ := ih (wpmStep s e) hc
      exact ⟨hb'.trans hb, hc'⟩

/-- C6: the baseline is monotonically non-decreasing over any event run; while
calibrating, a tick sets it to the running maximum of the observed WPM; a
calibrating tick with five session minutes elapsed and a positive (post-ratchet)
baseline closes calibration; and once calibration is closed, every later run
leaves the baseline equal to its value at close and calibration closed. -/
theorem wpm_baseline_ratchet_and_freeze :
    (∀ (s : WpmState) (es : List WpmEvt), s.baseline ≤ (wpmRun s es).baseline) ∧
    (∀ (s : WpmState) (now : Nat), s.calibrating = true →
      (wpmTick s now).1.baseline = max s.baseline (tickWpm s now)) ∧
    (∀ (s : WpmState) (now : Nat), s.calibrating = true →
      5 ≤ tickSessionMinutes s now → 0 < max s.baseline (tickWpm s now) →
      (wpmTick s now).1.calibrating = false) ∧
    ∀ (s : WpmState) (es : List WpmEvt), s.calibrating = false →
      (wpmRun s es).baseline = s.baseline ∧ (wpmRun s es).calibrating = false := by
  refine ⟨fun s es => wpmRun_baseline_mono es s, ?_, ?_, fun s es h => wpmRun_frozen es s h⟩
  · intro s now h
    simp only [wpmTick, h]
    rw [Nat.max_def]
    split_ifs <;> simp_all <;> omega
  · intro s now h h5 hpos
    simp only [wpmTick, h]
    split_ifs with hcond <;> simp_all [Nat.max_def]

/-- Witness for C6: a calibrating tick seeing 20 keystrokes in the window
ratchets the baseline from 2 to the tick WPM 4; a closed state stays frozen
over a later tick. -/
theorem wpm_baseline_ratchet_and_freeze_witness :
    (wpmTick ⟨List.map (fun i => 50 + i) (List.range 20), 2, true, [], 0⟩ 100).1.baseline
      = max 2 4 ∧
    (wpmRun ⟨[], 80, false, [], 0⟩ [WpmEvt.tick 3600000]).baseline = 80 := by
  constructor
  · have h := wpm_baseline_ratchet_and_freeze.2.1
      ⟨List.map (fun i => 50 + i) (List.range 20), 2, true, [], 0⟩ 100 rfl
    rw [h]
    decide
  · exact (wpm_baseline_ratchet_and_freeze.2.2.2 ⟨[], 80, false, [], 0⟩
      [WpmEvt.tick 3600000] rfl).1

/-- Counterexample to C7: a post-calibration tick with baseline 80 and no
keystrokes in the window has current WPM 0, a relative drop of 100 % ≥ 50 %,
yet the reported fatigue is `none`, not `high` — the source additionally
requires `currentWpm > 0`. -/
theorem wpm_fatigue_zero_wpm_counterexample :
    (wpmTick ⟨[], 80, false, [], 0⟩ 3600000).1.calibrating = false ∧
    (wpmTick ⟨[], 80, false, [], 0⟩ 3600000).1.baseline = 80 ∧
    (wpmTick ⟨[], 80, false, [], 0⟩ 3600000).2.wpm = 0 ∧
    (1 : ℚ) - ((wpmTick ⟨[], 80, false, [], 0⟩ 3600000).2.wpm : ℚ) / 80 ≥ HIGH_DROP ∧
    (wpmTick ⟨[], 80, false, [], 0⟩ 3600000).2.fatigue ≠ Fatigue.high := by
  refine ⟨rfl, rfl, rfl, ?_, ?_⟩
  · norm_num [wpmTick, tickWpm, prunedKeystrokes, jsRoundDiv, HIGH_DROP, CHARS_PER_WORD]
  · decide

/-- C7 (amended with `currentWpm > 0`): after calibration has closed with a
positive baseline and with a positive current WPM, the reported fatigue level
is exactly the threshold classification of the relative drop
`1 − currentWpm / baseline` — ≥ 50 % high, ≥ 30 % moderate, ≥ 15 % mild, else
none, which over naturals is `2·wpm ≤ baseline`, `10·wpm ≤ 7·baseline`,
`20·wpm ≤ 17·baseline` respectively; while calibrating, fatigue is always
`none`; and a tick's reported fatigue is exactly `fatigueOf` of its
post-ratchet baseline and post-close flag. -/
theorem wpm_fatigue_thresholds :
    (∀ b w : Nat, 0 < b → 0 < w →
      (fatigueOf false b w = Fatigue.high ↔ 2 * w ≤ b) ∧
      (fatigueOf false b w = Fatigue.moderate ↔ 10 * w ≤ 7 * b ∧ ¬2 * w ≤ b) ∧
      (fatigueOf false b w = Fatigue.mild ↔ 20 * w ≤ 17 * b ∧ ¬10 * w ≤ 7 * b) ∧
      (fatigueOf false b w = Fatigue.none ↔ ¬20 * w ≤ 17 * b)) ∧
    (∀ b w : Nat, fatigueOf true b w = Fatigue.none) ∧
    ∀ (s : WpmState) (now : Nat),
      (wpmTick s now).2.fatigue
        = fatigueOf (wpmTick s now).1.calibrating (wpmTick s now).1.baseline
            (wpmTick s now).2.wpm := by
  refine ⟨?_, ?_, ?_⟩
  · intro b w hb hw
    have hb0 : (0 : ℚ) < (b : ℚ) := by exact_mod_cast hb
    have key : ∀ c : ℚ, ((1 : ℚ) - (w : ℚ) / (b : ℚ) ≥ c) ↔ ((w : ℚ) ≤ (1 - c) * b) := by
      intro c
      constructor
      · intro hg
        have h1 : (w : ℚ) / b ≤ 1 - c := by linarith
        rw [div_le_iff₀ hb0] at h1
        linarith [mul_le_mul_of_nonneg_right (le_refl (1 - c)) (le_of_lt hb0)]
      · intro hle
        have h1 : (w : ℚ) / b ≤ 1 - c := by
          rw [div_le_iff₀ hb0]
          linarith
        linarith
    have H : ((1 : ℚ) - (w : ℚ) / (b : ℚ) ≥ HIGH_DROP) ↔ 2 * w ≤ b := by
      rw [key HIGH_DROP]
      unfold HIGH_DROP
      constructor
      · intro h
        have h2 : ((2 * w : Nat) : ℚ) ≤ (b : ℚ) := by push_cast; linarith
        exact_mod_cast h2
      · intro h
        have h2 : ((2 * w : Nat) : ℚ) ≤ (b : ℚ) := by exact_mod_cast h
        push_cast at h2
        linarith
    have M : ((1 : ℚ) - (w : ℚ) / (b : ℚ) ≥ MODERATE_DROP) ↔ 10 * w ≤ 7 * b := by
      rw [key MODERATE_DROP]
      unfold MODERATE_DROP
      constructor
      · intro h
        have h2 : ((10 * w : Nat) : ℚ) ≤ ((7 * b : Nat) : ℚ) := by push_cast; linarith
        exact_mod_cast h2
      · intro h
        have h2 : ((10 * w : Nat) : ℚ) ≤ ((7 * b : Nat) : ℚ) := by exact_mod_cast h
        push_cast at h2
        linarith
    have L : ((1 : ℚ) - (w : ℚ) / (b : ℚ) ≥ MILD_DROP) ↔ 20 * w ≤ 17 * b := by
      rw [key MILD_DROP]
      unfold MILD_DROP
      constructor
      · intro h
        have h2 : ((20 * w : Nat) : ℚ) ≤ ((17 * b : Nat) : ℚ) := by push_cast; linarith
        exact_mod_cast h2
      · intro h
        have h2 : ((20 * w : Nat) : ℚ) ≤ ((17 * b : Nat) : ℚ) := by exact_mod_cast h
        push_cast at h2
        linarith
    simp only [fatigueOf]
    rw [if_pos (show True ∧ b > 0 ∧ w > 0 from ⟨trivial, hb, hw⟩)]
    split_ifs with h1 h2 h3
    · have i1 := H.mp h1
      have i2 : 10 * w ≤ 7 * b := by omega
      have i3 : 20 * w ≤ 17 * b := by omega
      simp [i1, i2, i3]
    · have n1 : ¬2 * w ≤ b := fun hx => h1 (H.mpr hx)
      have i2 := M.mp h2
      have i3 : 20 * w ≤ 17 * b := by omega
      simp [n1, i2, i3]
    · have n1 : ¬2 * w ≤ b := fun hx => h1 (H.mpr hx)
      have n2 : ¬10 * w ≤ 7 * b := fun hx => h2 (M.mpr hx)
      have i3 := L.mp h3
      simp [n1, n2, i3]
    · have n2 : ¬10 * w ≤ 7 * b := fun hx => h2 (M.mpr hx)
      have n3 : ¬20 * w ≤ 17 * b := fun hx => h3 (L.mpr hx)
      have n1 : ¬2 * w ≤ b := by omega
      simp [n1, n2, n3]
  · intro b w
    simp [fatigueOf]
  · intro s now
    rfl

/-- Witness for C7: the spec scenario — baseline 80, current WPM 35, a 56 %
drop — classifies as `high`, via a post-calibration tick seeing 175 keystrokes
in the window. -/
theorem wpm_fatigue_thresholds_witness :
    fatigueOf false 80 35 = Fatigue.high ∧
    (wpmTick ⟨List.map (fun i => 50 + i) (List.range 175), 80, false, [], 0⟩ 100).2.fatigue
      = fatigueOf
          (wpmTick ⟨List.map (fun i => 50 + i) (List.range 175), 80, false, [], 0⟩ 100).1.calibrating
          (wpmTick ⟨List.map (fun i => 50 + i) (List.range 175), 80, false, [], 0⟩ 100).1.baseline
          (wpmTick ⟨List.map (fun i => 50 + i) (List.range 175), 80, false, [], 0⟩ 100).2.wpm := by
  constructor
  · exact ((wpm_fatigue_thresholds.1 80 35 (by decide) (by decide)).1).mpr (by decide)
  · exact wpm_fatigue_thresholds.2.2
      ⟨List.map (fun i => 50 + i) (List.range 175), 80, false, [], 0⟩ 100

lemma speechInv_init : SpeechInv initSpeech := by
  refine ⟨rfl, by simp [initSpeech], fun _ => rfl, rfl, rfl⟩

/-- The serial-queue invariant is preserved by every event. -/
lemma speechInv_step (s : SpeechState) (e : SpeechEvt) (hinv : SpeechInv s) :
    SpeechInv (speechStep s e) := by
  obtain ⟨h1, h2, h3, h4, h5⟩ := hinv
  cases e with
  | enq t =>
      cases hq : s.playing with
      | cons p rest =>
          have hsp : s.speaking = true := by rw [h1, hq]; rfl
          have hrest : rest = [] := by rw [hq] at h2; simpa using h2
          subst hrest
          simp only [speechStep, queueSpeak, processSpeechQueue, hsp, if_true]
          refine ⟨?_, ?_, ?_, ?_, ?_⟩
          all_goals simp [hsp, h1, h2, h4, h5, hq]
      | nil =>
          have hsp : s.speaking = false := by rw [h1, hq]; rfl
          have hpd : s.pending = [] := h3 hq
          simp only [speechStep, queueSpeak, processSpeechQueue, hsp, hpd, hq]
          refine ⟨?_, ?_, ?_, ?_, ?_⟩
          all_goals simp [hsp, h1, h2, h4, h5, hq, hpd]
  | fin ok =>
      cases hq : s.playing with
      | nil =>
          simp only [speechStep, finishTask, hq]
          exact ⟨h1, h2, h3, h4, h5⟩
      | cons p rest =>
          have hrest : rest = [] := by rw [hq] at h2; simpa using h2
          subst hrest
          cases hpd : s.pending with
          | nil =>
              simp only [speechStep, finishTask, hq, processSpeechQueue, hpd]
              refine ⟨?_, ?_, ?_, ?_, ?_⟩
              all_goals simp [h1, h2, h4, h5, hq, hpd]
          | cons q qs =>
              simp only [speechStep, finishTask, hq, processSpeechQueue, hpd]
              refine ⟨?_, ?_, ?_, ?_, ?_⟩
              all_goals simp [h1, h2, h4, h5, hq, hpd]

/-- Every reachable speech-queue state satisfies the serial-queue invariant. -/
lemma speechReach_inv {s : SpeechState} (h : SpeechReach s) : SpeechInv s := by
  induction h with
  | init => exact speechInv_init
  | step e _ ih => exact speechInv_step _ e ih

/-- C3: serial FIFO playback.  In every state reachable from module load under
any interleaving of enqueues (from any number of callers) and completions, at
most one task is playing; tasks start in exactly enqueue order (the start log
is the completion log followed by the in-flight task); and the enqueue log is
the completion log, then the in-flight task, then the still-pending tasks — so
tasks also complete in exactly enqueue order. -/
theorem speech_queue_serial_fifo :
    ∀ s : SpeechState, SpeechReach s →
      s.playing.length ≤ 1 ∧
      s.started = s.completedTasks ++ s.playing ∧
      s.enqueued = s.completedTasks ++ s.playing ++ s.pending := by
  intro s h
  obtain ⟨_, h2, _, h4, h5⟩ := speechReach_inv h
  exact ⟨h2, h4, h5⟩

/-- Witness for C3: two tasks enqueued back to back — task 0 plays alone while
task 1 waits in enqueue order. -/
theorem speech_queue_serial_fifo_witness :
    (speechStep (speechStep initSpeech (SpeechEvt.enq 0)) (SpeechEvt.enq 1)).playing.length ≤ 1 ∧
    (speechStep (speechStep initSpeech (SpeechEvt.enq 0)) (SpeechEvt.enq 1)).started
      = (speechStep (speechStep initSpeech (SpeechEvt.enq 0)) (SpeechEvt.enq 1)).completedTasks
        ++ (speechStep (speechStep initSpeech (SpeechEvt.enq 0)) (SpeechEvt.enq 1)).playing ∧
    (speechStep (speechStep initSpeech (SpeechEvt.enq 0)) (SpeechEvt.enq 1)).enqueued
      = (speechStep (speechStep initSpeech (SpeechEvt.enq 0)) (SpeechEvt.enq 1)).completedTasks
        ++ (speechStep (speechStep initSpeech (SpeechEvt.enq 0)) (SpeechEvt.enq 1)).playing
        ++ (speechStep (speechStep initSpeech (SpeechEvt.enq 0)) (SpeechEvt.enq 1)).pending :=
  speech_queue_serial_fifo _
    (SpeechReach.step (SpeechEvt.enq 1) (SpeechReach.step (SpeechEvt.enq 0) SpeechReach.init))

/-- From any invariant-satisfying state, settling the in-flight task once per
remaining task — with arbitrary success/failure outcomes — completes every
enqueued task in order and leaves the queue idle. -/
lemma drainSpeech_inv :
    ∀ (flags : List Bool) (s : SpeechState), SpeechInv s →
      flags.length = s.playing.length + s.pending.length →
      drainSpeech s flags =
        { pending := [], playing := [], completedTasks := s.enqueued,
          speaking := false, started := s.enqueued, enqueued := s.enqueued } := by
  intro flags
  induction flags with
  | nil =>
      intro s hinv hlen
      obtain ⟨h1, h2, h3, h4, h5⟩ := hinv
      simp only [List.length_nil] at hlen
      have hpl : s.playing = [] := List.length_eq_zero.mp (by omega)
      have hpd : s.pending = [] := h3 hpl
      have hsp : s.speaking = false := by rw [h1, hpl]; rfl
      have hst : s.started = s.completedTasks := by rw [h4, hpl]; simp
      have hen : s.enqueued = s.completedTasks := by rw [h5, hpl, hpd]; simp
      show s = _
      cases s
      simp_all
  | cons ok fs ih =>
      intro s hinv hlen
      obtain ⟨h1, h2, h3, h4, h5⟩ := hinv
      have hne : s.playing ≠ [] := by
        intro hpl
        rw [hpl, h3 hpl] at hlen
        simp at hlen
      obtain ⟨p, rest, hp⟩ : ∃ p rest, s.playing = p :: rest := by
        cases hq : s.playing with
        | nil => exact absurd hq hne
        | cons a l => exact ⟨a, l, rfl⟩
      have hrest : rest = [] := by rw [hp] at h2; simpa using h2
      subst hrest
      have hstep : drainSpeech s (ok :: fs) = drainSpeech (finishTask ok s) fs := rfl
      have hinv' : SpeechInv (finishTask ok s) :=
        speechInv_step s (SpeechEvt.fin ok) ⟨h1, h2, h3, h4, h5⟩
      have hen' : (finishTask ok s).enqueued = s.enqueued := by
        cases hpd : s.pending <;> simp [finishTask, hp, processSpeechQueue, hpd]
      have hlen' : fs.length
          = (finishTask ok s).playing.length + (finishTask ok s).pending.length := by
        cases hpd : s.pending with
        | nil =>
            rw [hp, hpd] at hlen
            simp at hlen
            simp [finishTask, hp, processSpeechQueue, hpd, hlen]
        | cons q qs =>
            rw [hp, hpd] at hlen
            simp at hlen
            simp [finishTask, hp, processSpeechQueue, hpd]
            omega
      rw [hstep, ih (finishTask ok s) hinv' hlen', hen']

/-- C10: failure resilience.  From any reachable state, settling the in-flight
task once per remaining task — each settlement either succeeding or failing
(producer rejection or decode/playback error), in any combination — completes
every enqueued task in enqueue order, resets the speaking flag, and empties the
queue: a failing task never blocks the tasks enqueued after it. -/
theorem speech_queue_failure_resilient :
    ∀ s : SpeechState, SpeechReach s → ∀ flags : List Bool,
      flags.length = s.playing.length + s.pending.length →
      drainSpeech s flags =
        { pending := [], playing := [], completedTasks := s.enqueued,
          speaking := false, started := s.enqueued, enqueued := s.enqueued } :=
  fun s h flags hlen => drainSpeech_inv flags s (speechReach_inv h) hlen

/-- Witness for C10: tasks 0 and 1 are enqueued, task 0 fails and task 1
succeeds; both still complete in order and the queue returns to idle. -/
theorem speech_queue_failure_resilient_witness :
    drainSpeech (speechStep (speechStep initSpeech (SpeechEvt.enq 0)) (SpeechEvt.enq 1))
      [false, true] =
      { pending := [], playing := [],
        completedTasks :=
          (speechStep (speechStep initSpeech (SpeechEvt.enq 0)) (SpeechEvt.enq 1)).enqueued,
        speaking := false,
        started :=
          (speechStep (speechStep initSpeech (SpeechEvt.enq 0)) (SpeechEvt.enq 1)).enqueued,
        enqueued :=
          (speechStep (speechStep initSpeech (SpeechEvt.enq 0)) (SpeechEvt.enq 1)).enqueued } :=
  speech_queue_failure_resilient _
    (SpeechReach.step (SpeechEvt.enq 1) (SpeechReach.step (SpeechEvt.enq 0) SpeechReach.init))
    [false, true] (by decide)

/-- C8: the blink-rate recomputation divides by time since the last recorded
blink, not elapsed observation time.  After 600 s of tracking with 30 blinks,
the last 2 s ago, the widget reports 30 blinks/min while the specified formula
over the observation window yields 3 blinks/min. -/
theorem blink_rate_elapsed_divergence :
    blinksPerMinute 600000 598000 30 = 30 ∧ blinksPerMinuteSpec 600000 0 30 = 3 := by
  constructor <;> norm_num [blinksPerMinute, blinksPerMinuteSpec, jsRound, round_eq]
